import Mathlib

/-!
Verification of the tensor-access tracer of this repository against its
natural-language specification.

The embedding below is a shallow model of the C sources:
  * `src/ggml/include/tensor_trace.h`  (record layout, layer-id extraction)
  * `src/ggml/src/tensor_trace.c`      (registry, disk-offset map, provenance
    classifier, operation logger, per-thread batcher, shared log sink)
  * `src/tools/gguf-dump/gguf-dump.cpp` (offline dumper's layer-id rule)

Modelling conventions: C strings become `List Char` (a NULL `const char *`
becomes `Option (List Char)` where the code checks for NULL); pointers become
`Nat` values (the address); machine-integer casts that can overflow carry an
explicit `% 2 ^ w`; global mutable state becomes explicit state records with
the mutating functions as state transformers; a write to the diagnostic
stream (`fprintf(stderr, ...)`) is counted in a `warnings` field of the state
owning the write.
-/

/-! ### Character classes used by the C library functions -/

/-- The C `isspace` class in the "C" locale: space, tab, newline, vertical
tab, form feed, carriage return.  `sscanf` with `%d` skips this class. -/
def c_isspace (c : Char) : Bool :=
  c = ' ' || c = '\t' || c = '\n' || c = '\x0b' || c = '\x0c' || c = '\r'

/-- Numeric value of a decimal digit character. -/
def digitVal (c : Char) : Nat := c.toNat - 48

/-- Value of a run of decimal digit characters, most significant first. -/
def digitsToNat (ds : List Char) : Nat :=
  ds.foldl (fun a c => 10 * a + digitVal c) 0

/-- Model of C `sscanf(s, "%d", &out)` restricted to its result: `none` when
the conversion fails (sscanf returns 0 or EOF), `some v` when it stores `v`.
Per the C standard, `%d` skips leading whitespace, accepts one optional sign,
then requires at least one decimal digit and consumes the maximal digit run.
The value is kept as an unbounded `Int`; the only consumers compare it with
`0` and `65535`, and on those comparisons the unbounded value agrees with a
saturating 32-bit conversion, so overflow needs no separate modelling. -/
def sscanf_d (s : List Char) : Option Int :=
  match s.dropWhile c_isspace with
  | [] => none
  | c :: rest =>
    if c = '-' then
      let ds := rest.takeWhile Char.isDigit
      if ds = [] then none else some (-(digitsToNat ds : Int))
    else if c = '+' then
      let ds := rest.takeWhile Char.isDigit
      if ds = [] then none else some (digitsToNat ds : Int)
    else
      let ds := (c :: rest).takeWhile Char.isDigit
      if ds = [] then none else some (digitsToNat ds : Int)

/-- The four characters compared by `strncmp(name, "blk.", 4)`. -/
def blkDot : List Char := ['b', 'l', 'k', '.']

/-! ### Layer-id extraction (tensor_trace.h lines 103-111)

```c
static inline uint16_t tensor_trace_extract_layer_id(const char* name) {
    if (name && strncmp(name, "blk.", 4) == 0) {
        int layer = -1;
        if (sscanf(name + 4, "%d", &layer) == 1 && layer >= 0 && layer < 65535) {
            return (uint16_t)layer;
        }
    }
    return 65535;
}
```
-/

/-- Shallow embedding of `tensor_trace_extract_layer_id`.  The argument is
`none` when the C caller passes a NULL pointer. -/
def tensor_trace_extract_layer_id (name : Option (List Char)) : Nat :=
  match name with
  | none => 65535
  | some s =>
    if s.take 4 = blkDot then
      match sscanf_d (s.drop 4) with
      | some v => if 0 ≤ v ∧ v < 65535 then v.toNat else 65535
      | none => 65535
    else 65535

/-! ### The gguf-dump layer-id rule (gguf-dump.cpp lines 35-44)

```c
int extract_layer_id(const char* name) {
    if (strncmp(name, "blk.", 4) == 0) {
        int layer = -1;
        if (sscanf(name + 4, "%d", &layer) == 1) {
            return layer;
        }
    }
    return -1;
}
```
-/

/-- Shallow embedding of the gguf-dump tool's `extract_layer_id`.  Unlike the
tracer's function it returns a C `int`: the parsed value with no range check,
and `-1` (not 65535) when the name is not a layer name. -/
def extract_layer_id (s : List Char) : Int :=
  if s.take 4 = blkDot then
    match sscanf_d (s.drop 4) with
    | some v => v
    | none => -1
  else -1

/-! ### Spec-side renderings of the layer-id claims -/

/-- Rendering of claim C3 exactly as stated: a name that begins with `blk.`
followed immediately by a decimal digit run of value `N < 65535` yields `N`;
every other string yields `UINT16_MAX`. -/
def claim_layer_id (s : List Char) : Nat :=
  if s.take 4 = blkDot then
    let ds := (s.drop 4).takeWhile Char.isDigit
    if ds = [] then 65535
    else if digitsToNat ds < 65535 then digitsToNat ds else 65535
  else 65535

/-- The layer-id rule as the code actually implements it, phrased over plain
digit runs: after `blk.` the scan first skips C whitespace and accepts one
optional sign (this is `sscanf %d` behaviour the claim omits); a digit run of
value `N < 65535` yields `N` when unsigned or `+`-signed; a `-`-signed run
yields its value only when that value is `0`; everything else yields
`UINT16_MAX`. -/
def claim_layer_id_amended (s : List Char) : Nat :=
  if s.take 4 = blkDot then
    match (s.drop 4).dropWhile c_isspace with
    | [] => 65535
    | c :: rest =>
      if c = '-' then
        let ds := rest.takeWhile Char.isDigit
        if ds = [] then 65535 else if digitsToNat ds = 0 then 0 else 65535
      else if c = '+' then
        let ds := rest.takeWhile Char.isDigit
        if ds = [] then 65535
        else if digitsToNat ds < 65535 then digitsToNat ds else 65535
      else
        let ds := (c :: rest).takeWhile Char.isDigit
        if ds = [] then 65535
        else if digitsToNat ds < 65535 then digitsToNat ds else 65535
  else 65535

/-- A counterexample input for C3: the space after `blk.` is skipped by
`sscanf %d`, so the code parses the digit. -/
def c3Name : List Char := ("blk. 5.ffn_up.weight").data

/-- C3 counterexample: `"blk. 5.ffn_up.weight"` does not begin with `blk.`
followed by a decimal integer, so the claim requires the result 65535; the
code returns 5 because `sscanf %d` skips the space. -/
theorem extract_layer_id_whitespace_counterexample :
    tensor_trace_extract_layer_id (some c3Name) = 5 ∧
    claim_layer_id c3Name = 65535 ∧ (5 : Nat) ≠ 65535 := by
  refine ⟨?_, ?_, by decide⟩ <;> decide

/-- Clamping helper: the C comparison chain `layer >= 0 && layer < 65535`
followed by the `uint16_t` cast, restated over `Nat` for a nonnegative
parsed value. -/
theorem layer_clamp_cast_eq (n : Nat) :
    (if 0 ≤ (n : Int) ∧ (n : Int) < 65535 then ((n : Int)).toNat else 65535) =
      if n < 65535 then n else 65535 := by
  by_cases h : n < 65535
  · have h2 : ((n : Int)) < 65535 := by omega
    have h0 : (0 : Int) ≤ (n : Int) := by omega
    simp [h, h2, h0]
  · have h2 : ¬ ((n : Int) < 65535) := by omega
    simp [h, h2]

/-- C3 amended: `tensor_trace_extract_layer_id` agrees everywhere with the
claimed rule amended by `sscanf %d` semantics (optional whitespace and one
optional sign are accepted between `blk.` and the digits, a `-`-signed zero
still counts); in particular on names where `blk.` is followed immediately by
digits the original claim's rule holds unchanged. -/
theorem extract_layer_id_eq_amended_rule :
    ∀ s : List Char,
      tensor_trace_extract_layer_id (some s) = claim_layer_id_amended s := by
  intro s
  simp only [tensor_trace_extract_layer_id, claim_layer_id_amended, sscanf_d]
  by_cases h4 : s.take 4 = blkDot
  · rw [if_pos h4, if_pos h4]
    cases hd : (s.drop 4).dropWhile c_isspace with
    | nil => rfl
    | cons c rest =>
      simp only []
      by_cases hneg : c = '-'
      · rw [if_pos hneg, if_pos hneg]
        generalize rest.takeWhile Char.isDigit = ds
        by_cases he : ds = []
        · simp only [if_pos he]
        · by_cases hz : digitsToNat ds = 0
          · simp only [if_neg he, hz]
            norm_num
          · have h1 : ¬ ((0 : Int) ≤ -((digitsToNat ds : Int)) ∧
                -((digitsToNat ds : Int)) < 65535) := by omega
            simp only [if_neg he, if_neg h1, if_neg hz]
      · by_cases hpos : c = '+'
        · rw [if_neg hneg, if_neg hneg, if_pos hpos, if_pos hpos]
          generalize rest.takeWhile Char.isDigit = ds
          by_cases he : ds = []
          · simp only [if_pos he]
          · simp only [if_neg he]
            exact layer_clamp_cast_eq _
        · rw [if_neg hneg, if_neg hneg, if_neg hpos, if_neg hpos]
          generalize (c :: rest).takeWhile Char.isDigit = ds
          by_cases he : ds = []
          · simp only [if_pos he]
          · simp only [if_neg he]
            exact layer_clamp_cast_eq _
  · rw [if_neg h4, if_neg h4]

/-- A non-layer tensor name used as the C9 counterexample. -/
def c9Name : List Char := ("output.weight").data

/-- C9 counterexample: on the non-layer name `"output.weight"` the gguf-dump
tool's rule yields `-1`, not the `UINT16_MAX` the claim requires (the
tracer's rule, for comparison, does yield 65535 there). -/
theorem gguf_layer_id_counterexample :
    extract_layer_id c9Name = -1 ∧ (-1 : Int) ≠ 65535 ∧
    tensor_trace_extract_layer_id (some c9Name) = 65535 := by
  refine ⟨by decide, by decide, by decide⟩

/-- C9 amended: the dumper's rule is the tracer's rule without the range
clamp and with `-1` as its sentinel: for every name the tracer's extraction
equals the dumper's value clamped to `[0, 65535)` with everything outside
(including the dumper's `-1` sentinel and values ≥ 65535) mapped to
`UINT16_MAX`.  The two rules agree exactly when the dumper's value lies in
`[0, 65535)`. -/
theorem gguf_layer_id_clamp_of_tracer_rule :
    ∀ s : List Char,
      tensor_trace_extract_layer_id (some s) =
        if 0 ≤ extract_layer_id s ∧ extract_layer_id s < 65535 then
          (extract_layer_id s).toNat
        else 65535 := by
  intro s
  unfold tensor_trace_extract_layer_id extract_layer_id
  by_cases h4 : s.take 4 = blkDot
  · simp only [h4, if_pos rfl]
    rcases hv : sscanf_d (s.drop 4) with _ | v
    · simp
    · simp
  · simp [h4]

/-! ### Tensor registry (tensor_trace.c lines 41-267)

The registry is the global array `g_tensor_registry` together with
`g_registry_count`.  It is modelled as the list of entries in registration
order; `warnings` counts the `fprintf(stderr, ...)` calls the registry code
makes (one per rejected registration). -/

/-- Mirror of `struct TensorRegistryEntry` (tensor_trace.c lines 45-52). -/
structure TensorRegistryEntry where
  data_ptr : Nat
  name : List Char
  file_offset : Nat
  size_bytes : Nat
  layer_id : Nat
  tensor_idx : Nat
deriving DecidableEq, Repr

/-- Capacity of the registry array (`MAX_REGISTERED_TENSORS`). -/
def MAX_REGISTERED_TENSORS : Nat := 1024

/-- Global registry state: `entries` is `g_tensor_registry[0..g_registry_count)`
in order, `warnings` counts diagnostic-stream lines written by the registry. -/
structure RegistryState where
  entries : List TensorRegistryEntry
  warnings : Nat
deriving DecidableEq, Repr

/-- The empty registry (all-zero globals at program start). -/
def initRegistry : RegistryState := { entries := [], warnings := 0 }

/-- Shallow embedding of `tensor_trace_register_tensor` (lines 197-228).
The capacity branch writes one warning to stderr and stores nothing.
Otherwise the entry is appended: `strncpy` into the 64-byte `name` field
keeps at most 63 characters, `tensor_idx` is the current count, and
`layer_id` is extracted from the stored (truncated) name. -/
def tensor_trace_register_tensor (st : RegistryState) (name : Option (List Char))
    (data_ptr file_offset size_bytes : Nat) : RegistryState :=
  if MAX_REGISTERED_TENSORS ≤ st.entries.length then
    { st with warnings := st.warnings + 1 }
  else
    let nm := (name.getD []).take 63
    { st with
      entries := st.entries ++
        [{ data_ptr := data_ptr, name := nm, file_offset := file_offset,
           size_bytes := size_bytes,
           layer_id := tensor_trace_extract_layer_id (some nm),
           tensor_idx := st.entries.length }] }

/-- The linear scan of `tensor_trace_lookup_idx` (lines 231-240), with the
loop counter made explicit. -/
def lookupScan : List TensorRegistryEntry → Nat → Nat → Nat
  | [], _, _ => 4294967295
  | e :: rest, p, i => if e.data_ptr = p then i else lookupScan rest p (i + 1)

/-- Shallow embedding of `tensor_trace_lookup_idx`: index of the first entry
whose `data_ptr` matches, `UINT32_MAX` when none does. -/
def tensor_trace_lookup_idx (st : RegistryState) (data_ptr : Nat) : Nat :=
  lookupScan st.entries data_ptr 0

/-- Shallow embedding of `tensor_trace_dump_registry` (lines 243-268)
restricted to its data content: the CSV body is one row per entry, in order,
holding `(tensor_idx, tensor_name, data_ptr, file_offset, size_bytes,
layer_id)`. -/
def tensor_trace_dump_registry (st : RegistryState) :
    List (Nat × List Char × Nat × Nat × Nat × Nat) :=
  st.entries.map (fun e =>
    (e.tensor_idx, e.name, e.data_ptr, e.file_offset, e.size_bytes, e.layer_id))

/-! ### Disk-offset map (tensor_trace.c lines 352-383) -/

/-- Capacity of the disk-offset map (`MAX_OFFSET_MAP_SIZE`). -/
def MAX_OFFSET_MAP_SIZE : Nat := 2048

/-- State of `g_offset_map` / `g_offset_map_count`: name-to-offset pairs in
registration order; `warnings` counts diagnostic-stream lines written by this
component (the C code writes none). -/
structure OffsetMapState where
  entries : List (List Char × Nat)
  warnings : Nat
deriving DecidableEq, Repr

/-- The empty disk-offset map. -/
def initOffsetMap : OffsetMapState := { entries := [], warnings := 0 }

/-- Shallow embedding of `tensor_trace_register_disk_offset` (lines 362-371).
A NULL name or a full map makes the call return at once; note that unlike
`tensor_trace_register_tensor` the full-map branch prints nothing.  The
stored name is truncated to 63 characters by `strncpy`. -/
def tensor_trace_register_disk_offset (st : OffsetMapState)
    (name : Option (List Char)) (offset : Nat) : OffsetMapState :=
  match name with
  | none => st
  | some n =>
    if MAX_OFFSET_MAP_SIZE ≤ st.entries.length then st
    else { st with entries := st.entries ++ [(n.take 63, offset)] }

/-- The linear scan of `tensor_trace_lookup_disk_offset` (lines 377-382):
offset of the first entry whose name compares equal, else 0. -/
def offsetScan : List (List Char × Nat) → List Char → Nat
  | [], _ => 0
  | (n, off) :: rest, q => if n = q then off else offsetScan rest q

/-- Shallow embedding of `tensor_trace_lookup_disk_offset` (lines 374-383):
0 for a NULL name, otherwise the first matching entry's offset (0 when the
name was never recorded). -/
def tensor_trace_lookup_disk_offset (st : OffsetMapState)
    (name : Option (List Char)) : Nat :=
  match name with
  | none => 0
  | some q => offsetScan st.entries q

/-! ### Registration sequences (claim C4) -/

/-- One registration request as the loader would issue it:
`(name, data_ptr, file_offset, size_bytes)`. -/
abbrev RegReq : Type := List Char × Nat × Nat × Nat

/-- Run a sequence of `tensor_trace_register_tensor` calls. -/
def applyRegs : RegistryState → List RegReq → RegistryState
  | st, [] => st
  | st, r :: rest =>
    applyRegs (tensor_trace_register_tensor st (some r.1) r.2.1 r.2.2.1 r.2.2.2) rest

/-- The entry `tensor_trace_register_tensor` stores for request `r` when the
registry holds `i` entries. -/
def mkEntry (i : Nat) (r : RegReq) : TensorRegistryEntry :=
  { data_ptr := r.2.1, name := r.1.take 63, file_offset := r.2.2.1,
    size_bytes := r.2.2.2,
    layer_id := tensor_trace_extract_layer_id (some (r.1.take 63)),
    tensor_idx := i }

/-- The entries a request list produces when registration starts at index `i`. -/
def mkEntries : Nat → List RegReq → List TensorRegistryEntry
  | _, [] => []
  | i, r :: rest => mkEntry i r :: mkEntries (i + 1) rest

theorem mkEntries_length (regs : List RegReq) :
    ∀ i, (mkEntries i regs).length = regs.length := by
  induction regs with
  | nil => intro i; rfl
  | cons r rest ih => intro i; simp [mkEntries, ih]

theorem applyRegs_entries (regs : List RegReq) :
    ∀ st : RegistryState,
      st.entries.length + regs.length ≤ MAX_REGISTERED_TENSORS →
      (applyRegs st regs).entries =
        st.entries ++ mkEntries st.entries.length regs := by
  induction regs with
  | nil => intro st _; simp [applyRegs, mkEntries]
  | cons r rest ih =>
    intro st hcap
    have hlt : ¬ MAX_REGISTERED_TENSORS ≤ st.entries.length := by
      simp only [List.length_cons] at hcap; omega
    have hreg : tensor_trace_register_tensor st (some r.1) r.2.1 r.2.2.1 r.2.2.2 =
        { st with entries := st.entries ++ [mkEntry st.entries.length r] } := by
      simp [tensor_trace_register_tensor, hlt, mkEntry]
    show (applyRegs (tensor_trace_register_tensor st (some r.1) r.2.1 r.2.2.1 r.2.2.2)
        rest).entries = _
    rw [hreg]
    have hlen : (st.entries ++ [mkEntry st.entries.length r]).length + rest.length ≤
        MAX_REGISTERED_TENSORS := by
      simp only [List.length_append, List.length_cons] at hcap ⊢
      simp only [List.length_nil]
      omega
    rw [ih _ hlen]
    simp [mkEntries, List.append_assoc]

theorem mkEntries_get? (regs : List RegReq) :
    ∀ i k r, regs.get? k = some r →
      (mkEntries i regs).get? k = some (mkEntry (i + k) r) := by
  induction regs with
  | nil => intro i k r h; simp [List.get?] at h
  | cons q rest ih =>
    intro i k r h
    cases k with
    | zero =>
      simp only [List.get?] at h
      cases h
      simp [mkEntries, List.get?]
    | succ k' =>
      simp only [List.get?] at h
      have := ih (i + 1) k' r h
      simp only [mkEntries, List.get?]
      rw [this]
      have : i + 1 + k' = i + (k' + 1) := by omega
      rw [this]

theorem lookupScan_mkEntries (regs : List RegReq) :
    ∀ i k r, regs.get? k = some r →
      List.Pairwise (fun a b : RegReq => a.2.1 ≠ b.2.1) regs →
      lookupScan (mkEntries i regs) r.2.1 i = i + k := by
  induction regs with
  | nil => intro i k r h _; simp [List.get?] at h
  | cons q rest ih =>
    intro i k r h hpw
    rcases List.pairwise_cons.mp hpw with ⟨hq, hrest⟩
    cases k with
    | zero =>
      simp only [List.get?] at h
      cases h
      simp [mkEntries, lookupScan, mkEntry]
    | succ k' =>
      simp only [List.get?] at h
      have hmem : r ∈ rest := List.get?_mem h
      have hne : q.2.1 ≠ r.2.1 := hq r hmem
      simp only [mkEntries, lookupScan, mkEntry]
      rw [if_neg hne]
      rw [ih (i + 1) k' r h hrest]
      omega

/-- C4: for a registration sequence with pairwise-distinct data addresses
that fits the registry capacity (and names that fit the 63-character name
field, per the spec's data model), the k-th registered pointer looks up to
index k, and the k-th registry-dump CSV row carries exactly the registered
name, pointer, offset, size and the layer id extracted from the name.
Because the statement holds for every such sequence, it holds in particular
for every extension of a given sequence: index k keeps this meaning for the
rest of the trace, and distinct addresses always receive distinct indices. -/
theorem register_tensor_roundtrip (regs : List RegReq)
    (hcap : regs.length ≤ MAX_REGISTERED_TENSORS)
    (hdist : List.Pairwise (fun a b : RegReq => a.2.1 ≠ b.2.1) regs)
    (hfit : ∀ r ∈ regs, r.1.length ≤ 63) :
    ∀ k r, regs.get? k = some r →
      tensor_trace_lookup_idx (applyRegs initRegistry regs) r.2.1 = k ∧
      (tensor_trace_dump_registry (applyRegs initRegistry regs)).get? k =
        some (k, r.1, r.2.1, r.2.2.1, r.2.2.2,
          tensor_trace_extract_layer_id (some r.1)) := by
  intro k r hk
  have hent : (applyRegs initRegistry regs).entries = mkEntries 0 regs := by
    have := applyRegs_entries regs initRegistry (by simp [initRegistry]; omega)
    simpa [initRegistry] using this
  have htake : r.1.take 63 = r.1 := List.take_of_length_le (hfit r (List.get?_mem hk))
  constructor
  · show lookupScan (applyRegs initRegistry regs).entries r.2.1 0 = k
    rw [hent]
    have := lookupScan_mkEntries regs 0 k r hk hdist
    simpa using this
  · show ((applyRegs initRegistry regs).entries.map _).get? k = _
    rw [hent, List.get?_map, mkEntries_get? regs 0 k r hk]
    simp [mkEntry, htake]

/-- A concrete two-element registration sequence for the C4 witness. -/
def regsW : List RegReq :=
  [(("blk.5.attn_q.weight").data, 100, 4096, 64),
   (("output.weight").data, 200, 0, 16)]

/-- C4 witness: the round-trip theorem applied to a concrete sequence. -/
theorem register_tensor_roundtrip_witness :
    tensor_trace_lookup_idx (applyRegs initRegistry regsW) 200 = 1 ∧
    (tensor_trace_dump_registry (applyRegs initRegistry regsW)).get? 1 =
      some (1, ("output.weight").data, 200, 0, 16,
        tensor_trace_extract_layer_id (some (("output.weight").data))) :=
  register_tensor_roundtrip regsW (by decide) (by decide) (by decide)
    1 (("output.weight").data, 200, 0, 16) (by decide)

/-! ### Disk-offset map capacity policy (claim C8) -/

/-- A zero registry entry (for building concrete full states). -/
def zeroRegEntry : TensorRegistryEntry :=
  { data_ptr := 0, name := [], file_offset := 0, size_bytes := 0,
    layer_id := 0, tensor_idx := 0 }

/-- A disk-offset map filled to its capacity of 2048 entries. -/
def fullOffsetMap : OffsetMapState :=
  { entries := List.replicate MAX_OFFSET_MAP_SIZE ([], 0), warnings := 0 }

/-- A registry filled to its capacity of 1024 entries. -/
def fullRegistry : RegistryState :=
  { entries := List.replicate MAX_REGISTERED_TENSORS zeroRegEntry, warnings := 0 }

/-- C8 counterexample: with the disk-offset map at capacity,
`tensor_trace_register_disk_offset` returns with the state — in particular
the diagnostic warning count — completely unchanged, emitting no warning;
`tensor_trace_register_tensor` at capacity does emit one.  The claimed
"same capacity policy including the warning" is therefore false. -/
theorem register_disk_offset_full_counterexample :
    tensor_trace_register_disk_offset fullOffsetMap (some (("a").data)) 5 =
      fullOffsetMap ∧
    (tensor_trace_register_disk_offset fullOffsetMap (some (("a").data)) 5).warnings
      = 0 ∧
    (tensor_trace_register_tensor fullRegistry (some (("a").data)) 1 2 3).warnings
      = fullRegistry.warnings + 1 := by
  have hfull : MAX_OFFSET_MAP_SIZE ≤ fullOffsetMap.entries.length := by
    simp [fullOffsetMap]
  have h1 : tensor_trace_register_disk_offset fullOffsetMap (some (("a").data)) 5 =
      fullOffsetMap := by
    simp [tensor_trace_register_disk_offset, hfull]
  refine ⟨h1, by rw [h1]; rfl, ?_⟩
  have hrfull : MAX_REGISTERED_TENSORS ≤ fullRegistry.entries.length := by
    simp [fullRegistry]
  simp [tensor_trace_register_tensor, hrfull]

/-- C8 amended: when the disk-offset map is at capacity,
`register_disk_offset` returns without storing and never aborts (it is a
total function returning the state unchanged), and entries already stored
and their lookups are unaffected — but, unlike `register_tensor`, it emits
no warning to the diagnostic stream. -/
theorem register_disk_offset_full_noop (st : OffsetMapState) (n : List Char)
    (off : Nat) (hfull : MAX_OFFSET_MAP_SIZE ≤ st.entries.length) :
    tensor_trace_register_disk_offset st (some n) off = st ∧
    (∀ q, tensor_trace_lookup_disk_offset
        (tensor_trace_register_disk_offset st (some n) off) q =
          tensor_trace_lookup_disk_offset st q) ∧
    (tensor_trace_register_disk_offset st (some n) off).warnings = st.warnings := by
  have h1 : tensor_trace_register_disk_offset st (some n) off = st := by
    simp [tensor_trace_register_disk_offset, hfull]
  exact ⟨h1, fun q => by rw [h1], by rw [h1]⟩

/-- C8 witness: the amended no-op theorem applied to the concrete full map. -/
theorem register_disk_offset_full_noop_witness :
    tensor_trace_register_disk_offset fullOffsetMap (some (("b").data)) 7 =
      fullOffsetMap :=
  (register_disk_offset_full_noop fullOffsetMap (("b").data) 7
    (by simp [fullOffsetMap])).1

/-! ### Tensor and buffer model (ggml externals used by the tracer)

`log_operation` reads, of a `ggml_tensor`, only: its name (`ggml_get_name`,
which returns the embedded `name[]` array and is never NULL — an unnamed
tensor has the empty name), its `data` pointer, its `buffer` handle and that
buffer's usage tag (`ggml_backend_buffer_get_usage`), its `op` tag and its
byte size (`ggml_nbytes`).  Only those projections are modelled.  Source
tensors' own sources are never dereferenced by the tracer, so a source is a
flat record and the destination carries a list of optional source slots
(`dst->src[i]`, NULL meaning the slot is empty). -/

/-- Mirror of `enum ggml_backend_buffer_usage`. -/
inductive BufferUsage
  | ANY
  | WEIGHTS
  | COMPUTE
deriving DecidableEq, Repr

/-- A backend buffer handle: its address (the value of the
`ggml_backend_buffer_t` pointer) and its usage tag. -/
structure GgmlBuffer where
  addr : Nat
  usage : BufferUsage
deriving DecidableEq, Repr

/-- The projections of a source `ggml_tensor` read by the tracer.  `data` is
`none` for a NULL data pointer; `buffer` is `none` for a NULL buffer. -/
structure SrcTensor where
  name : List Char
  data : Option Nat
  buffer : Option GgmlBuffer
  nbytes : Nat
deriving DecidableEq, Repr

/-- The projections of a destination `ggml_tensor` read by the tracer. -/
structure DstTensor where
  name : List Char
  op : Nat
  src : List (Option SrcTensor)
deriving DecidableEq, Repr

/-- Mirror of `enum MemorySource` (tensor_trace.h lines 20-23). -/
inductive MemorySource
  | DISK
  | BUFFER
deriving DecidableEq, Repr

/-- The `uint8_t` value of a `MemorySource` tag (`DISK = 0`, `BUFFER = 1`). -/
def MemorySource.toNat : MemorySource → Nat
  | .DISK => 0
  | .BUFFER => 1

/-- Shallow embedding of `tensor_trace_detect_memory_source` (tensor_trace.c
lines 388-403): NULL tensor or NULL buffer defaults to BUFFER; a WEIGHTS
buffer means DISK; COMPUTE and ANY mean BUFFER. -/
def tensor_trace_detect_memory_source (t : Option SrcTensor) : MemorySource :=
  match t with
  | none => .BUFFER
  | some t =>
    match t.buffer with
    | none => .BUFFER
    | some buf => if buf.usage = .WEIGHTS then .DISK else .BUFFER

/-- Shallow embedding of `tensor_trace_get_disk_offset` (lines 405-418):
0 for a NULL tensor or a NULL/empty name, otherwise the disk-offset map
lookup by name. -/
def tensor_trace_get_disk_offset (m : OffsetMapState) (t : Option SrcTensor) : Nat :=
  match t with
  | none => 0
  | some t =>
    if t.name = [] then 0
    else tensor_trace_lookup_disk_offset m (some t.name)

/-- Shallow embedding of `tensor_trace_get_buffer_id` (lines 420-427): 0 for
a NULL tensor or NULL buffer, otherwise the buffer pointer's value as a
`uint64_t` (pointers are 64-bit, so the cast is the identity on the
address). -/
def tensor_trace_get_buffer_id (t : Option SrcTensor) : Nat :=
  match t with
  | none => 0
  | some t =>
    match t.buffer with
    | none => 0
    | some buf => buf.addr

/-- The provenance pair `(memory_source, disk_offset_or_buffer_id)` exactly
as `tensor_trace_log_operation` computes it for a source (lines 498-503). -/
def classifySource (m : OffsetMapState) (s : SrcTensor) : MemorySource × Nat :=
  let ms := tensor_trace_detect_memory_source (some s)
  (ms,
    if ms = .DISK then tensor_trace_get_disk_offset m (some s)
    else tensor_trace_get_buffer_id (some s))

/-- The provenance classification exactly as claim C2 states it: buffer
absent means BUFFER; a WEIGHTS buffer means DISK with the disk-offset map
lookup by name (0 when the name is absent or not recorded); COMPUTE or ANY
means BUFFER with the buffer handle's address as the id. -/
def claimClassify (m : OffsetMapState) (s : SrcTensor) : MemorySource × Nat :=
  match s.buffer with
  | none => (.BUFFER, 0)
  | some buf =>
    if buf.usage = .WEIGHTS then
      (.DISK, if s.name = [] then 0 else offsetScan m.entries s.name)
    else (.BUFFER, buf.addr)

/-- C2: the provenance classification of `tensor_trace_log_operation` agrees
with the claim's case analysis for every source tensor and every disk-offset
map state. -/
theorem detect_memory_source_classification :
    ∀ (m : OffsetMapState) (s : SrcTensor),
      classifySource m s = claimClassify m s := by
  intro m s
  simp only [classifySource, claimClassify, tensor_trace_detect_memory_source,
    tensor_trace_get_disk_offset, tensor_trace_get_buffer_id,
    tensor_trace_lookup_disk_offset]
  cases hb : s.buffer with
  | none => simp
  | some buf =>
    by_cases hw : buf.usage = .WEIGHTS
    · simp [hw]
    · simp [hw]

/-! ### Operation records and the operation logger (tensor_trace.c 429-515) -/

/-- Mirror of `struct SourceTensorInfo` (tensor_trace.h lines 27-37),
padding fields dropped.  `memory_source` is the stored `uint8_t` value. -/
structure SourceTensorInfo where
  name : List Char
  tensor_ptr : Nat
  size_bytes : Nat
  layer_id : Nat
  memory_source : Nat
  disk_offset_or_buffer_id : Nat
  tensor_idx : Nat
deriving DecidableEq, Repr

/-- An all-zero source slot, as left by `struct TensorAccessLog entry = {0}`
(the zero `char` array reads back as the empty string). -/
def zeroSourceInfo : SourceTensorInfo :=
  { name := [], tensor_ptr := 0, size_bytes := 0, layer_id := 0,
    memory_source := 0, disk_offset_or_buffer_id := 0, tensor_idx := 0 }

/-- Mirror of `struct TensorAccessLog` (tensor_trace.h lines 45-67), padding
fields dropped.  `sources` always has exactly the four slots of the C
array. -/
structure TensorAccessLog where
  timestamp_ns : Nat
  token_id : Nat
  layer_id : Nat
  thread_id : Nat
  operation_type : Nat
  phase : Nat
  num_sources : Nat
  dst_name : List Char
  sources : List SourceTensorInfo
deriving DecidableEq, Repr

/-- Ambient tracer state read by `tensor_trace_log_operation`: the enable
flag, the driver-set phase and token id, the two load-time maps, and the
values the time and thread-id helpers return at this call. -/
structure TraceEnv where
  trace_enabled : Bool
  current_phase : Nat
  current_token_id : Nat
  offsets : OffsetMapState
  registry : RegistryState
  now_ns : Nat
  tid : Nat
deriving Repr

/-- The source-info slot `tensor_trace_log_operation` fills for a kept
source `s` (lines 482-503): truncated name, data address, `uint32_t`
byte size, layer id from the name, registry index, and the provenance
pair. -/
def mkSourceInfo (env : TraceEnv) (s : SrcTensor) : SourceTensorInfo :=
  let ms := tensor_trace_detect_memory_source (some s)
  { name := s.name.take 19
  , tensor_ptr := s.data.getD 0
  , size_bytes := s.nbytes % 4294967296
  , layer_id := tensor_trace_extract_layer_id (some s.name)
  , tensor_idx := tensor_trace_lookup_idx env.registry (s.data.getD 0)
  , memory_source := ms.toNat
  , disk_offset_or_buffer_id :=
      if ms = .DISK then tensor_trace_get_disk_offset env.offsets (some s)
      else tensor_trace_get_buffer_id (some s) }

/-- The source-scan loop of `tensor_trace_log_operation` (lines 468-511):
walk the slots in order, `break` at the first NULL source, `continue` past a
source with a NULL data pointer, and fill one record slot per remaining
source. -/
def sourceLoop (env : TraceEnv) : List (Option SrcTensor) → List SourceTensorInfo
  | [] => []
  | none :: _ => []
  | some s :: rest =>
    match s.data with
    | none => sourceLoop env rest
    | some _ => mkSourceInfo env s :: sourceLoop env rest

/-- The in-loop layer-id update (lines 506-508): once per filled slot, a
sentinel operation-level layer id is replaced by the slot's layer id when
that one is not the sentinel. -/
def inheritLayer (d : Nat) (srcs : List SourceTensorInfo) : Nat :=
  srcs.foldl
    (fun acc s => if acc = 65535 ∧ s.layer_id ≠ 65535 then s.layer_id else acc) d

/-- The record `tensor_trace_log_operation` assembles for a non-NULL
destination once past its early exits (lines 446-511): zero-initialized
entry, operation metadata, truncated destination name, destination layer id
with the in-loop inheritance, the scanned source slots, and the remaining
slots left zero-filled. -/
def tensor_trace_build_entry (env : TraceEnv) (dst : DstTensor) : TensorAccessLog :=
  let srcs := sourceLoop env (dst.src.take 4)
  { timestamp_ns := env.now_ns
  , token_id := env.current_token_id
  , layer_id := inheritLayer (tensor_trace_extract_layer_id (some dst.name)) srcs
  , thread_id := env.tid
  , operation_type := dst.op % 256
  , phase := env.current_phase
  , num_sources := srcs.length
  , dst_name := dst.name.take 23
  , sources := srcs ++ List.replicate (4 - srcs.length) zeroSourceInfo }

/-- Shallow embedding of `tensor_trace_log_operation` (lines 432-515) up to
the point where the assembled entry is handed to `tensor_trace_log`:
`none` when one of the early exits fires (tracing disabled, NULL
destination, or a worker other than the lead), otherwise the emitted
entry. -/
def tensor_trace_log_operation (env : TraceEnv) (dst : Option DstTensor)
    (ith : Int) : Option TensorAccessLog :=
  if env.trace_enabled = false then none
  else
    match dst with
    | none => none
    | some d => if ith ≠ 0 then none else some (tensor_trace_build_entry env d)

/-- The sources kept by the scan, described as the claim does: of the first
four slots, the prefix before the first absent source, minus the sources
with an absent data address. -/
def keptSources (slots : List (Option SrcTensor)) : List SrcTensor :=
  (slots.take 4).foldr
    (fun o acc => match o with | none => [] | some s => s :: acc) []
    |>.filter (fun s => s.data.isSome)

/-- The prefix of present sources before the first empty slot. -/
def untilNone : List (Option SrcTensor) → List SrcTensor
  | [] => []
  | none :: _ => []
  | some s :: rest => s :: untilNone rest

theorem keptSources_eq (slots : List (Option SrcTensor)) :
    keptSources slots = (untilNone (slots.take 4)).filter (fun s => s.data.isSome) := by
  unfold keptSources
  congr 1
  generalize slots.take 4 = l
  induction l with
  | nil => rfl
  | cons o rest ih =>
    cases o with
    | none => rfl
    | some s => simp [untilNone, List.foldr, ih]

theorem sourceLoop_eq_kept (env : TraceEnv) (slots : List (Option SrcTensor)) :
    sourceLoop env slots =
      ((untilNone slots).filter (fun s => s.data.isSome)).map (mkSourceInfo env) := by
  induction slots with
  | nil => rfl
  | cons o rest ih =>
    cases o with
    | none => rfl
    | some s =>
      cases hd : s.data with
      | none =>
        simp only [sourceLoop, hd, untilNone]
        rw [ih]
        have : s.data.isSome = false := by rw [hd]; rfl
        simp [List.filter, this]
      | some p =>
        simp only [sourceLoop, hd, untilNone]
        have : s.data.isSome = true := by rw [hd]; rfl
        simp [List.filter, this, ih]

theorem untilNone_length_le (slots : List (Option SrcTensor)) :
    (untilNone slots).length ≤ slots.length := by
  induction slots with
  | nil => simp [untilNone]
  | cons o rest ih =>
    cases o with
    | none => simp [untilNone]
    | some s => simp [untilNone]; omega

/-- C5: the source slots of every emitted record are exactly the claim's
scan: the present sources before the first absent slot, minus those with an
absent data address, fill the record slots in order; `num_sources` counts
exactly those and is at most 4; the remaining slots are zero-filled. -/
theorem log_operation_source_scan (env : TraceEnv) (dst : DstTensor) :
    (tensor_trace_build_entry env dst).num_sources = (keptSources dst.src).length ∧
    (keptSources dst.src).length ≤ 4 ∧
    (tensor_trace_build_entry env dst).sources =
      (keptSources dst.src).map (mkSourceInfo env) ++
        List.replicate (4 - (keptSources dst.src).length) zeroSourceInfo := by
  have hkept : sourceLoop env (dst.src.take 4) =
      (keptSources dst.src).map (mkSourceInfo env) := by
    rw [keptSources_eq, sourceLoop_eq_kept]
  have hlen4 : (keptSources dst.src).length ≤ 4 := by
    rw [keptSources_eq]
    have h1 := List.length_filter_le (fun s : SrcTensor => s.data.isSome)
      (untilNone (dst.src.take 4))
    have h2 := untilNone_length_le (dst.src.take 4)
    have h3 : (dst.src.take 4).length ≤ 4 := by
      simp [List.length_take]
    omega
  refine ⟨?_, hlen4, ?_⟩
  · show (sourceLoop env (dst.src.take 4)).length = _
    rw [hkept, List.length_map]
  · show sourceLoop env (dst.src.take 4) ++
        List.replicate (4 - (sourceLoop env (dst.src.take 4)).length) zeroSourceInfo = _
    rw [hkept, List.length_map]

/-! ### Layer-id inheritance (claim C7) -/

theorem inheritLayer_eq (srcs : List SourceTensorInfo) :
    ∀ d, inheritLayer d srcs =
      if d ≠ 65535 then d
      else
        match srcs.find? (fun s => s.layer_id != 65535) with
        | some s => s.layer_id
        | none => 65535 := by
  induction srcs with
  | nil =>
    intro d
    by_cases hd : d = 65535
    · simp [inheritLayer, hd]
    · simp [inheritLayer, hd]
  | cons s rest ih =>
    intro d
    have hstep : inheritLayer d (s :: rest) =
        inheritLayer (if d = 65535 ∧ s.layer_id ≠ 65535 then s.layer_id else d) rest := rfl
    rw [hstep]
    by_cases hd : d = 65535
    · by_cases hs : s.layer_id = 65535
      · have hupd : (if d = 65535 ∧ s.layer_id ≠ 65535 then s.layer_id else d) = d := by
          simp [hs]
        rw [hupd, ih d]
        have hfind : (s :: rest).find? (fun s => s.layer_id != 65535) =
            rest.find? (fun s => s.layer_id != 65535) := by
          rw [List.find?_cons]
          simp [hs]
        rw [hfind]
      · have hupd : (if d = 65535 ∧ s.layer_id ≠ 65535 then s.layer_id else d) =
            s.layer_id := by simp [hd, hs]
        rw [hupd, ih s.layer_id]
        have hb : (s.layer_id != 65535) = true := by simp [hs]
        have hfind : (s :: rest).find? (fun s => s.layer_id != 65535) = some s := by
          rw [List.find?_cons, hb]
        rw [hfind]
        simp [hd, hs]
    · have hupd : (if d = 65535 ∧ s.layer_id ≠ 65535 then s.layer_id else d) = d := by
        simp [hd]
      rw [hupd, ih d]
      simp [hd]

/-- C7 amended: the record's layer id is the one extracted from the
destination name; when that is the sentinel `UINT16_MAX`, the record inherits
the layer id of the first filled source slot whose own layer id is not the
sentinel — not necessarily the first filled slot, as the claim says — and
stays `UINT16_MAX` only when no filled slot has one. -/
theorem log_operation_layer_inheritance (env : TraceEnv) (dst : DstTensor) :
    (tensor_trace_build_entry env dst).layer_id =
      if tensor_trace_extract_layer_id (some dst.name) ≠ 65535 then
        tensor_trace_extract_layer_id (some dst.name)
      else
        match (sourceLoop env (dst.src.take 4)).find?
            (fun s => s.layer_id != 65535) with
        | some s => s.layer_id
        | none => 65535 := by
  show inheritLayer _ _ = _
  rw [inheritLayer_eq]

/-- Ambient state for the C7 counterexample: tracing enabled, empty maps. -/
def envC7 : TraceEnv :=
  { trace_enabled := true, current_phase := 0, current_token_id := 0,
    offsets := initOffsetMap, registry := initRegistry, now_ns := 0, tid := 0 }

/-- A source with data but no layer in its name. -/
def srcNoLayer : SrcTensor :=
  { name := ("inp_embd").data, data := some 1, buffer := none, nbytes := 4 }

/-- A source with data whose name carries layer 7. -/
def srcLayer7 : SrcTensor :=
  { name := ("blk.7.attn_q.weight").data, data := some 2, buffer := none,
    nbytes := 8 }

/-- A destination whose own name has no layer id, whose first filled source
has none either, and whose second filled source has layer 7. -/
def dstC7 : DstTensor :=
  { name := ("node_12").data, op := 1,
    src := [some srcNoLayer, some srcLayer7, none, none] }

/-- C7 counterexample: the first filled source slot's layer id is the
sentinel 65535, so by the claim the record's layer id must stay 65535; the
code instead inherits 7 from the second filled slot. -/
theorem log_operation_layer_inheritance_counterexample :
    (tensor_trace_build_entry envC7 dstC7).layer_id = 7 ∧
    ((tensor_trace_build_entry envC7 dstC7).sources.head?.map
      (fun s => s.layer_id)) = some 65535 ∧
    tensor_trace_extract_layer_id (some dstC7.name) = 65535 ∧
    (7 : Nat) ≠ 65535 := by
  refine ⟨by decide, by decide, by decide, by decide⟩

/-! ### Leader-only logging (claim C1) -/

theorem countP_range_eq_one (N : Nat) (h : 0 < N) :
    (List.range N).countP (fun w => w == 0) = 1 := by
  induction N with
  | zero => omega
  | succ n ih =>
    rw [List.range_succ, List.countP_append]
    cases Nat.eq_zero_or_pos n with
    | inl h0 =>
      subst h0
      rfl
    | inr hp =>
      rw [ih hp]
      have hn : ((n == 0) : Bool) = false := by
        simp; omega
      simp [List.countP_cons, hn]

/-- C1: `tensor_trace_log_operation` hands an entry to the batcher only when
tracing is enabled, the destination is non-NULL and the worker index is 0;
consequently, over a parallel fan-out that invokes it once for each worker
index `0..N-1` on the same destination with tracing enabled, exactly one of
the `N` calls emits a record. -/
theorem log_operation_leader_only (env : TraceEnv) (d : DstTensor) (N : Nat)
    (hEn : env.trace_enabled = true) (hN : 0 < N) :
    ((List.range N).countP
      (fun w : Nat =>
        (tensor_trace_log_operation env (some d) (w : Int)).isSome)) = 1 ∧
    (∀ (env' : TraceEnv) (dst : Option DstTensor) (ith : Int),
      (tensor_trace_log_operation env' dst ith).isSome = true →
      env'.trace_enabled = true ∧ dst.isSome = true ∧ ith = 0) := by
  constructor
  · have hpred : ∀ w : Nat,
        (tensor_trace_log_operation env (some d) (w : Int)).isSome = (w == 0) := by
      intro w
      unfold tensor_trace_log_operation
      rw [hEn]
      by_cases hw : w = 0
      · subst hw
        simp
      · have hwi : ((w : Int)) ≠ 0 := by
          simp
          omega
        simp [hwi, hw]
    have hfun : (fun w : Nat =>
        (tensor_trace_log_operation env (some d) (w : Int)).isSome) =
          (fun w : Nat => w == 0) := funext hpred
    rw [hfun]
    exact countP_range_eq_one N hN
  · intro env' dst ith h
    unfold tensor_trace_log_operation at h
    cases henv : env'.trace_enabled with
    | false => rw [henv] at h; simp at h
    | true =>
      rw [henv] at h
      cases dst with
      | none => simp at h
      | some d' =>
        by_cases hith : ith = 0
        · exact ⟨rfl, rfl, hith⟩
        · simp [hith] at h

/-- Ambient state for the C1 witness: tracing enabled, empty maps. -/
def envW : TraceEnv :=
  { trace_enabled := true, current_phase := 1, current_token_id := 3,
    offsets := initOffsetMap, registry := initRegistry, now_ns := 17, tid := 2 }

/-- Destination for the C1 witness. -/
def dstW : DstTensor :=
  { name := ("blk.0.attn_norm").data, op := 2, src := [] }

/-- C1 witness: the leader-only theorem applied to a fan-out of width 3. -/
theorem log_operation_leader_only_witness :
    ((List.range 3).countP
      (fun w : Nat =>
        (tensor_trace_log_operation envW (some dstW) (w : Int)).isSome)) = 1 :=
  (log_operation_leader_only envW dstW 3 rfl (by decide)).1

/-! ### Shared log sink and per-thread batcher (tensor_trace.c 22-195)

The shared log is the mmap'd region `g_log_buffer` with capacity
`g_log_capacity` and write offset `g_log_offset`; its populated prefix is
modelled as the list of committed 256-byte records.  `warnings` counts the
"Log buffer full" lines written to stderr. -/

/-- `sizeof(struct TensorAccessLog)` in the C build. -/
def RECORD_SIZE : Nat := 256

/-- Capacity of the thread-local ring (`THREAD_LOCAL_BUFFER_SIZE`). -/
def THREAD_LOCAL_BUFFER_SIZE : Nat := 512

/-- State of the shared log sink. -/
structure LogSink where
  capacity : Nat
  log_offset : Nat
  data : List TensorAccessLog
  warnings : Nat
deriving DecidableEq, Repr

/-- The batch-commit step inside `tensor_trace_log` (lines 139-153): compute
`bytes_to_write`, and either memcpy the batch at `g_log_offset` and advance,
or print one warning and drop the batch.  Shutdown's tail flush (lines
163-171) is the same check without the warning. -/
def tensor_trace_commit (st : LogSink) (batch : List TensorAccessLog) : LogSink :=
  let bytes := batch.length * RECORD_SIZE
  if st.log_offset + bytes ≤ st.capacity then
    { st with data := st.data ++ batch, log_offset := st.log_offset + bytes }
  else
    { st with warnings := st.warnings + 1 }

/-- A whole trace viewed at commit granularity: the sequence of batches the
thread-local rings hand to the sink, in order. -/
def runCommits (st : LogSink) : List (List TensorAccessLog) → LogSink
  | [] => st
  | b :: rest => runCommits (tensor_trace_commit st b) rest

/-- Number of batches of a trace the sink refuses. -/
def droppedCount (st : LogSink) : List (List TensorAccessLog) → Nat
  | [] => 0
  | b :: rest =>
    (if st.capacity < st.log_offset + b.length * RECORD_SIZE then 1 else 0) +
      droppedCount (tensor_trace_commit st b) rest

theorem runCommits_warnings (bs : List (List TensorAccessLog)) :
    ∀ st : LogSink,
      (runCommits st bs).warnings = st.warnings + droppedCount st bs := by
  induction bs with
  | nil => intro st; simp [runCommits, droppedCount]
  | cons b rest ih =>
    intro st
    show (runCommits (tensor_trace_commit st b) rest).warnings = _
    rw [ih]
    have hdc : droppedCount st (b :: rest) =
        (if st.capacity < st.log_offset + b.length * RECORD_SIZE then 1 else 0) +
          droppedCount (tensor_trace_commit st b) rest := rfl
    rw [hdc]
    by_cases h : st.log_offset + b.length * RECORD_SIZE ≤ st.capacity
    · have hw : (tensor_trace_commit st b).warnings = st.warnings := by
        unfold tensor_trace_commit
        rw [if_pos h]
      rw [hw, if_neg (by omega)]
      omega
    · have hw : (tensor_trace_commit st b).warnings = st.warnings + 1 := by
        unfold tensor_trace_commit
        rw [if_neg h]
      rw [hw, if_pos (by omega)]
      omega

theorem commit_data_extends (st : LogSink) (b : List TensorAccessLog) :
    ∃ t, (tensor_trace_commit st b).data = st.data ++ t := by
  unfold tensor_trace_commit
  by_cases h : st.log_offset + b.length * RECORD_SIZE ≤ st.capacity
  · rw [if_pos h]
    exact ⟨b, rfl⟩
  · rw [if_neg h]
    exact ⟨[], by simp⟩

theorem runCommits_data_extends (bs : List (List TensorAccessLog)) :
    ∀ st : LogSink, ∃ tail, (runCommits st bs).data = st.data ++ tail := by
  induction bs with
  | nil => intro st; exact ⟨[], by simp [runCommits]⟩
  | cons b rest ih =>
    intro st
    rcases commit_data_extends st b with ⟨t1, h1⟩
    rcases ih (tensor_trace_commit st b) with ⟨t2, h2⟩
    refine ⟨t1 ++ t2, ?_⟩
    show (runCommits (tensor_trace_commit st b) rest).data = _
    rw [h2, h1, List.append_assoc]

theorem runCommits_offset_le (bs : List (List TensorAccessLog)) :
    ∀ st : LogSink, st.log_offset ≤ st.capacity →
      (runCommits st bs).log_offset ≤ (runCommits st bs).capacity := by
  induction bs with
  | nil => intro st h; exact h
  | cons b rest ih =>
    intro st h
    show (runCommits (tensor_trace_commit st b) rest).log_offset ≤ _
    apply ih
    unfold tensor_trace_commit
    by_cases hc : st.log_offset + b.length * RECORD_SIZE ≤ st.capacity
    · rw [if_pos hc]
      exact hc
    · rw [if_neg hc]
      exact h

/-- C6 amended: an overflowing batch commit leaves the sink exactly as it
was except for one more warning — the reservation is refused, the batch is
dropped, the commit offset does not advance and every previously committed
record is untouched; over a whole trace the committed data only ever grows
by whole accepted batches, the populated extent never exceeds the capacity,
and the warning count grows by one per dropped batch (so a trace with two
overflowing batches emits two warnings, not the claimed single one). -/
theorem log_commit_overflow_policy :
    (∀ (st : LogSink) (batch : List TensorAccessLog),
      st.capacity < st.log_offset + batch.length * RECORD_SIZE →
      tensor_trace_commit st batch = { st with warnings := st.warnings + 1 }) ∧
    (∀ (st : LogSink) (bs : List (List TensorAccessLog)),
      (runCommits st bs).warnings = st.warnings + droppedCount st bs ∧
      (∃ tail, (runCommits st bs).data = st.data ++ tail) ∧
      (st.log_offset ≤ st.capacity →
        (runCommits st bs).log_offset ≤ (runCommits st bs).capacity)) := by
  constructor
  · intro st batch hov
    unfold tensor_trace_commit
    rw [if_neg (by omega)]
  · intro st bs
    exact ⟨runCommits_warnings bs st, runCommits_data_extends bs st,
      runCommits_offset_le bs st⟩

/-- An empty 256-byte record (the zero-initialized entry). -/
def zeroEntry : TensorAccessLog :=
  { timestamp_ns := 0, token_id := 0, layer_id := 0, thread_id := 0,
    operation_type := 0, phase := 0, num_sources := 0, dst_name := [],
    sources := List.replicate 4 zeroSourceInfo }

/-- A sink whose capacity holds a single 256-byte record. -/
def sinkSmall : LogSink :=
  { capacity := 256, log_offset := 0, data := [], warnings := 0 }

/-- A two-record batch: 512 bytes, more than `sinkSmall` can take. -/
def batchTwo : List TensorAccessLog := [zeroEntry, zeroEntry]

/-- C6 counterexample: a trace in which two batch commits each exceed the
capacity emits two warnings, not the "exactly one warning in total" the
claim states. -/
theorem log_commit_overflow_counterexample :
    (runCommits sinkSmall [batchTwo, batchTwo]).warnings = 2 ∧ (2 : Nat) ≠ 1 := by
  refine ⟨by decide, by decide⟩

/-- C6 witness: the overflow-policy theorem applied to the concrete small
sink and oversized batch. -/
theorem log_commit_overflow_policy_witness :
    tensor_trace_commit sinkSmall batchTwo =
      { sinkSmall with warnings := sinkSmall.warnings + 1 } :=
  log_commit_overflow_policy.1 sinkSmall batchTwo (by decide)

/-! ### Thread-local ring bounds (claim C10) -/

/-- Combined tracer state as `tensor_trace_log` sees it: the init flag
(`g_log_buffer != NULL`), the shared sink, and the calling thread's ring
(`g_thread_local_buffer`, always 512 slots) with its in-use offset
(`g_thread_local_offset`). -/
structure TraceLogState where
  initialized : Bool
  sink : LogSink
  tl_buf : List TensorAccessLog
  tl_offset : Nat
deriving DecidableEq, Repr

/-- Shallow embedding of `tensor_trace_log` (tensor_trace.c lines 126-155):
no-op when uninitialized; otherwise store the entry at the in-use offset,
post-increment, and when the offset has reached the ring capacity commit the
whole ring and reset the offset to zero. -/
def tensor_trace_log (st : TraceLogState) (e : TensorAccessLog) : TraceLogState :=
  if st.initialized = false then st
  else
    let buf := st.tl_buf.set st.tl_offset e
    let off := st.tl_offset + 1
    if THREAD_LOCAL_BUFFER_SIZE ≤ off then
      { st with
        tl_buf := buf
        tl_offset := 0
        sink := tensor_trace_commit st.sink (buf.take off) }
    else
      { st with tl_buf := buf, tl_offset := off }

/-- The tracer state right after `tensor_trace_init` succeeds with capacity
`cap`: offsets zero, ring zero-filled. -/
def initLogState (cap : Nat) : TraceLogState :=
  { initialized := true
  , sink := { capacity := cap, log_offset := 0, data := [], warnings := 0 }
  , tl_buf := List.replicate THREAD_LOCAL_BUFFER_SIZE zeroEntry
  , tl_offset := 0 }

theorem tensor_trace_log_preserves_bound (st : TraceLogState)
    (e : TensorAccessLog) (h : st.tl_offset < THREAD_LOCAL_BUFFER_SIZE) :
    (tensor_trace_log st e).tl_offset < THREAD_LOCAL_BUFFER_SIZE ∧
    (tensor_trace_log st e).tl_buf.length = st.tl_buf.length := by
  unfold tensor_trace_log
  by_cases hinit : st.initialized = false
  · rw [if_pos hinit]
    exact ⟨h, rfl⟩
  · rw [if_neg hinit]
    by_cases hfull : THREAD_LOCAL_BUFFER_SIZE ≤ st.tl_offset + 1
    · rw [if_pos hfull]
      constructor
      · show 0 < THREAD_LOCAL_BUFFER_SIZE
        decide
      · simp [List.length_set]
    · rw [if_neg hfull]
      constructor
      · show st.tl_offset + 1 < THREAD_LOCAL_BUFFER_SIZE
        omega
      · simp [List.length_set]

theorem foldl_log_bound (es : List TensorAccessLog) :
    ∀ st : TraceLogState, st.tl_offset < THREAD_LOCAL_BUFFER_SIZE →
      (es.foldl tensor_trace_log st).tl_offset < THREAD_LOCAL_BUFFER_SIZE := by
  induction es with
  | nil => intro st h; exact h
  | cons e rest ih =>
    intro st h
    exact ih (tensor_trace_log st e) (tensor_trace_log_preserves_bound st e h).1

/-- C10: the in-use offset of the thread-local ring is strictly below the
512-slot capacity in every state reachable from a fresh tracer by any
sequence of `tensor_trace_log` calls, and each call (which writes at exactly
that offset before advancing it) keeps both the bound and the 512-slot ring
length; hence no call sequence writes past the end of the ring. -/
theorem thread_local_ring_in_bounds :
    (∀ (st : TraceLogState) (e : TensorAccessLog),
      st.tl_offset < THREAD_LOCAL_BUFFER_SIZE →
      (tensor_trace_log st e).tl_offset < THREAD_LOCAL_BUFFER_SIZE ∧
      (tensor_trace_log st e).tl_buf.length = st.tl_buf.length) ∧
    (∀ (cap : Nat) (es : List TensorAccessLog),
      (es.foldl tensor_trace_log (initLogState cap)).tl_offset <
        THREAD_LOCAL_BUFFER_SIZE) := by
  constructor
  · exact tensor_trace_log_preserves_bound
  · intro cap es
    apply foldl_log_bound
    show 0 < THREAD_LOCAL_BUFFER_SIZE
    decide

/-- C10 witness: the step theorem applied to a concrete fresh state. -/
theorem thread_local_ring_in_bounds_witness :
    (tensor_trace_log (initLogState 1024) zeroEntry).tl_offset <
      THREAD_LOCAL_BUFFER_SIZE ∧
    (tensor_trace_log (initLogState 1024) zeroEntry).tl_buf.length =
      (initLogState 1024).tl_buf.length :=
  thread_local_ring_in_bounds.1 (initLogState 1024) zeroEntry (by decide)
